import Mathlib

/-!
Verification development for the Deep-Learning-Rug colorization GAN.

Shallow embedding of `src/GANModel.py` and `src/models/ResNet_Generator.py`.
Tensors are modelled as batched 4-dimensional arrays of real numbers together
with an autograd `requiresGrad` marker; framework layers whose weights live
outside the repository (torchvision ResNet stages, ConvTranspose2d,
BatchNorm2d, Dropout) are modelled as functions bundled with the shape
contract the framework documents for them, while every operation the
repository itself writes out (concatenation, channel selection, detachment,
ReLU, tanh, the BCE and L1 reductions, the loss bookkeeping and the
alternating optimization schedule) is translated directly from the source.
-/

/-- A batched 4-dimensional tensor (batch, channel, height, width) of real
values, carrying the autograd tracking flag of the corresponding torch
tensor.  `data` is a total function; indices outside the shape are simply
never read by the operations below. -/
structure Tensor4 where
  N : ℕ
  C : ℕ
  H : ℕ
  W : ℕ
  requiresGrad : Bool
  data : ℕ → ℕ → ℕ → ℕ → ℝ

/-- `tensor.detach()`: same values, removed from the autograd graph. -/
def Tensor4.detach (t : Tensor4) : Tensor4 :=
  { t with requiresGrad := false }

/-- `torch.cat([a, b], dim=1)`: concatenation along the channel axis
(the only form of `torch.cat` the repository uses). -/
def Tensor4.catC (a b : Tensor4) : Tensor4 :=
  { N := a.N, C := a.C + b.C, H := a.H, W := a.W
    requiresGrad := a.requiresGrad || b.requiresGrad
    data := fun n c i j =>
      if c < a.C then a.data n c i j else b.data n (c - a.C) i j }

/-- `torch.reshape(L[:, 0, :, :], (L.shape[0], 1, L.shape[2], L.shape[3]))`
from `GANModel.optimize` line 125 / `test` line 186: keep channel 0 only. -/
def Tensor4.selectChannel0 (t : Tensor4) : Tensor4 :=
  { N := t.N, C := 1, H := t.H, W := t.W
    requiresGrad := t.requiresGrad
    data := fun n _ i j => t.data n 0 i j }

/-- `labels.expand_as(predictions)`: broadcast a scalar buffer to the shape
of the prediction tensor (the label buffers are registered constants, so the
result does not require gradients). -/
def Tensor4.expand_as (v : ℝ) (predictions : Tensor4) : Tensor4 :=
  { N := predictions.N, C := predictions.C, H := predictions.H
    W := predictions.W, requiresGrad := false
    data := fun _ _ _ _ => v }

/-- Number of elements of the tensor, as used by mean reductions. -/
def Tensor4.numel (t : Tensor4) : ℕ := t.N * t.C * t.H * t.W

/-- Sum of all in-shape entries. -/
def Tensor4.sumAll (t : Tensor4) : ℝ :=
  ∑ n ∈ Finset.range t.N, ∑ c ∈ Finset.range t.C,
    ∑ i ∈ Finset.range t.H, ∑ j ∈ Finset.range t.W, t.data n c i j

/-- Mean over all entries (the default `mean` reduction of the torch loss
modules). -/
noncomputable def Tensor4.meanAll (t : Tensor4) : ℝ := t.sumAll / t.numel

/-- Elementwise combination of two tensors of the same shape (shape taken
from the first argument, as torch broadcasting does for equal shapes). -/
def Tensor4.map2 (g : ℝ → ℝ → ℝ) (a b : Tensor4) : Tensor4 :=
  { N := a.N, C := a.C, H := a.H, W := a.W
    requiresGrad := a.requiresGrad || b.requiresGrad
    data := fun n c i j => g (a.data n c i j) (b.data n c i j) }

/-- Pointwise binary cross-entropy term of `nn.BCELoss`. -/
noncomputable def bcePoint (x y : ℝ) : ℝ :=
  -(y * Real.log x + (1 - y) * Real.log (1 - x))

/-- `nn.BCELoss()` with its default mean reduction. -/
noncomputable def bceMean (predictions labels : Tensor4) : ℝ :=
  (Tensor4.map2 bcePoint predictions labels).meanAll

/-- `nn.L1Loss()` with its default mean reduction. -/
noncomputable def l1Mean (a b : Tensor4) : ℝ :=
  (Tensor4.map2 (fun x y => |x - y|) a b).meanAll

/-- The `GANLoss` module of `GANModel.py` lines 30-49: two fixed label
buffers and a BCE criterion. -/
structure GANLoss where
  real_label : ℝ
  fake_label : ℝ

/-- `GANLoss.get_labels` (lines 38-44). -/
def GANLoss.get_labels (g : GANLoss) (predictions : Tensor4)
    (target_is_real : Bool) : Tensor4 :=
  Tensor4.expand_as
    (if target_is_real then g.real_label else g.fake_label) predictions

/-- `GANLoss.__call__` (lines 46-49). -/
noncomputable def GANLoss.call (g : GANLoss) (predictions : Tensor4)
    (target_is_real : Bool) : ℝ :=
  bceMean predictions (g.get_labels predictions target_is_real)

/-- `set_requires_grad` (lines 52-54): set the `requires_grad` flag of every
parameter of a network to the given value. -/
def set_requires_grad (flags : List Bool) (requires_grad : Bool) :
    List Bool :=
  flags.map (fun _ => requires_grad)

/-- Applying a network module under torch autograd: the module computes its
output from its parameters and its input, and the output is tracked by
autograd exactly when gradient mode is on and either the input is tracked or
some parameter requires gradients. -/
def runModule (gradMode : Bool) (paramsRequireGrad : Bool)
    (f : List ℝ → Tensor4 → Tensor4) (params : List ℝ) (x : Tensor4) :
    Tensor4 :=
  let y := f params x
  { y with requiresGrad := gradMode && (x.requiresGrad || paramsRequireGrad) }

/-- Exceptions of the Python runtime relevant to `GANModel.test`. -/
inductive PyError
  | typeError
  | attributeError
deriving DecidableEq

/-- Observable actions of one pass through the orchestrator, in program
order.  `GANModel.optimize`, `test` and `generate` are straight-line code
(no branching), so each has a fixed action sequence. -/
inductive DiscInput
  | fakeDetached
  | fakeLive
  | realComposite
deriving DecidableEq

inductive Event
  | genForward
  | discForward (input : DiscInput)
  | bceLossEval
  | l1LossEval
  | backwardD
  | stepD
  | backwardG
  | stepG
  | setDiscRG (value : Bool)
  | discTrainMode
  | genTrainMode
  | genEvalMode
  | discEvalMode
  | zeroGradD
  | zeroGradG
  | enterNoGrad
deriving DecidableEq

/-- Recognizer for the requires-grad toggle events. -/
def Event.isSetRG : Event → Bool
  | .setDiscRG _ => true
  | _ => false

/-- Recognizer for discriminator forward passes. -/
def Event.isDiscForward : Event → Bool
  | .discForward _ => true
  | _ => false

/-- Recognizer for loss evaluations. -/
def Event.isLossEval : Event → Bool
  | .bceLossEval => true
  | .l1LossEval => true
  | _ => false

/-- Recognizer for optimizer steps. -/
def Event.isOptStep : Event → Bool
  | .stepD => true
  | .stepG => true
  | _ => false

/-- The `ColorizationGAN` object of `GANModel.py`.  The generator and the
discriminator forwards are functions of their own parameter vectors (the
discriminator layer stack lives in `models/Discriminator.py`, outside the
core, and is a black box per the specification); each Adam optimizer is
modelled as the update its `step()` applies to the parameter list it was
constructed over, as a function of the scalar loss that was backpropagated.
`opt_D` is constructed over `disc.parameters()` only and `opt_G` over
`gen.parameters()` only (lines 102-103). -/
structure ColorizationGAN where
  lambda_l1 : ℝ
  /-- Python attribute dictionary entries relevant to the loss weighting
  (only `lambda_l1` is ever assigned, in `__init__` line 82). -/
  objAttrs : List (String × ℝ)
  genParams : List ℝ
  discParams : List ℝ
  genRG : List Bool
  discRG : List Bool
  genTraining : Bool
  discTraining : Bool
  genFwd : List ℝ → Tensor4 → Tensor4
  discFwd : List ℝ → Tensor4 → Tensor4
  ganloss : GANLoss
  optDUpdate : ℝ → List ℝ → List ℝ
  optGUpdate : ℝ → List ℝ → List ℝ
  loss_D_fake : ℝ
  loss_D_real : ℝ
  loss_D : ℝ
  loss_G_GAN : ℝ
  loss_G_L1 : ℝ
  loss_G : ℝ

/-- `ColorizationGAN.__init__` (lines 78-103): stores `lambda_l1`
(default 100), builds the two networks with freshly created parameters
(torch parameters require gradients by default), the `GANLoss` with its
default labels 1.0 / 0.0, and one Adam optimizer per network.  The loss
attributes are not assigned by `__init__`; they are modelled as 0 and only
ever read after a step has stored them. -/
def ColorizationGAN.init (genFwd discFwd : List ℝ → Tensor4 → Tensor4)
    (optDUpdate optGUpdate : ℝ → List ℝ → List ℝ)
    (genParams discParams : List ℝ) (lambda_l1 : ℝ := 100) :
    ColorizationGAN :=
  { lambda_l1 := lambda_l1
    objAttrs := [("lambda_l1", lambda_l1)]
    genParams := genParams
    discParams := discParams
    genRG := genParams.map (fun _ => true)
    discRG := discParams.map (fun _ => true)
    genTraining := true
    discTraining := true
    genFwd := genFwd
    discFwd := discFwd
    ganloss := { real_label := 1, fake_label := 0 }
    optDUpdate := optDUpdate
    optGUpdate := optGUpdate
    loss_D_fake := 0, loss_D_real := 0, loss_D := 0
    loss_G_GAN := 0, loss_G_L1 := 0, loss_G := 0 }

/-- `fake_ab = self.gen(L)` (line 122), run in gradient mode. -/
def fakeAB (st : ColorizationGAN) (L : Tensor4) : Tensor4 :=
  runModule true (st.genRG.any (fun b => b)) st.genFwd st.genParams L

/-- `fake_image = torch.cat([L, fake_ab], dim=1)` (lines 125 and 132). -/
def fakeImage (st : ColorizationGAN) (L : Tensor4) : Tensor4 :=
  Tensor4.catC L.selectChannel0 (fakeAB st L)

/-- `real_image = torch.cat([L, ab], dim=1)` (lines 125 and 137). -/
def realImage (L ab : Tensor4) : Tensor4 :=
  Tensor4.catC L.selectChannel0 ab

/-- The discriminator sub-step of `optimize` (lines 127-146): switch the
discriminator to training mode, enable its gradients, clear its gradients,
score the detached fake composite and the real composite, combine the two
BCE losses with factor 0.5, backpropagate and apply `opt_D.step()`. -/
noncomputable def discSubStep (st : ColorizationGAN) (fake_image real_image : Tensor4) :
    ColorizationGAN :=
  let discRG := set_requires_grad st.discRG true
  let fake_predictions :=
    runModule true (discRG.any (fun b => b)) st.discFwd st.discParams
      fake_image.detach
  let loss_D_fake := st.ganloss.call fake_predictions false
  let real_predictions :=
    runModule true (discRG.any (fun b => b)) st.discFwd st.discParams
      real_image
  let loss_D_real := st.ganloss.call real_predictions true
  let loss_D := (loss_D_fake + loss_D_real) * 0.5
  let discParams := st.optDUpdate loss_D st.discParams
  { st with
    discTraining := true
    discRG := discRG
    loss_D_fake := loss_D_fake
    loss_D_real := loss_D_real
    loss_D := loss_D
    discParams := discParams }

/-- The generator sub-step of `optimize` (lines 148-160): switch the
generator to training mode, freeze the discriminator, clear the generator
optimizer gradients, rescore the same (non-detached) fake composite with
the already-updated discriminator parameters, build the adversarial and
weighted L1 losses, backpropagate and apply `opt_G.step()`. -/
noncomputable def genSubStep (st : ColorizationGAN) (fake_image fake_ab ab : Tensor4) :
    ColorizationGAN :=
  let discRG := set_requires_grad st.discRG false
  let fake_predictions :=
    runModule true (discRG.any (fun b => b)) st.discFwd st.discParams
      fake_image
  let loss_G_GAN := st.ganloss.call fake_predictions true
  let loss_G_L1 := l1Mean fake_ab ab * st.lambda_l1
  let loss_G := loss_G_GAN + loss_G_L1
  let genParams := st.optGUpdate loss_G st.genParams
  { st with
    genTraining := true
    discRG := discRG
    loss_G_GAN := loss_G_GAN
    loss_G_L1 := loss_G_L1
    loss_G := loss_G
    genParams := genParams }

/-- `ColorizationGAN.optimize` (lines 105-160): one alternating training
round.  The Python method returns `None`; the model accordingly returns
only the mutated object. -/
noncomputable def ColorizationGAN.optimize (st : ColorizationGAN) (L ab : Tensor4) :
    ColorizationGAN :=
  genSubStep (discSubStep st (fakeImage st L) (realImage L ab))
    (fakeImage st L) (fakeAB st L) ab

/-- The action sequence of one `optimize` call, in source order
(lines 122-160).  `optimize` is branch-free, so the sequence is the same
for every call and every input. -/
def optimizeEvents : List Event :=
  [Event.genForward,
   Event.discTrainMode, Event.setDiscRG true, Event.zeroGradD,
   Event.discForward DiscInput.fakeDetached, Event.bceLossEval,
   Event.discForward DiscInput.realComposite, Event.bceLossEval,
   Event.backwardD, Event.stepD,
   Event.genTrainMode, Event.setDiscRG false, Event.zeroGradG,
   Event.discForward DiscInput.fakeLive, Event.bceLossEval,
   Event.l1LossEval,
   Event.backwardG, Event.stepG]

/-- Line 182 of `GANModel.test` reads `with torch.no_grad:` - the context
manager class is named but never instantiated.  Entering the class object
itself raises `TypeError` in CPython (the context-manager protocol is
looked up on the type of the managed object), and in particular gradient
tracking is never suspended. -/
def with_torch_no_grad_uninvoked : Except PyError Unit :=
  Except.error PyError.typeError

/-- `ColorizationGAN.test` (lines 162-211), translated line by line.  After
switching both networks to evaluation mode the method hits the uninvoked
`with torch.no_grad:` and raises; the remainder of the body (which would
run with gradient tracking still enabled, and which reads the never
assigned attribute `lambda_L1` on line 201 - `__init__` assigns
`lambda_l1`) is translated for reference but is unreachable at runtime.
Lines 206-208 carry trailing commas, so even if control reached them they
would store 1-tuples, not scalars, into `loss_D`, `loss_G_GAN` and
`loss_G_L1`. -/
noncomputable def ColorizationGAN.test (st : ColorizationGAN) (L ab : Tensor4) :
    Except PyError (ColorizationGAN × Tensor4) := do
  let st1 := { st with genTraining := false, discTraining := false }
  let _ ← with_torch_no_grad_uninvoked
  let fake_ab :=
    runModule true (st1.genRG.any (fun b => b)) st1.genFwd st1.genParams L
  let L1c := L.selectChannel0
  let fake_image := Tensor4.catC L1c fake_ab
  let fake_predictions :=
    runModule true (st1.discRG.any (fun b => b)) st1.discFwd st1.discParams
      fake_image.detach
  let loss_D_fake := st1.ganloss.call fake_predictions false
  let real_image := Tensor4.catC L1c ab
  let real_predictions :=
    runModule true (st1.discRG.any (fun b => b)) st1.discFwd st1.discParams
      real_image
  let loss_D_real := st1.ganloss.call real_predictions true
  let loss_D := (loss_D_fake + loss_D_real) * 0.5
  let fake_predictions2 :=
    runModule true (st1.discRG.any (fun b => b)) st1.discFwd st1.discParams
      fake_image
  let loss_G_GAN := st1.ganloss.call fake_predictions2 true
  let key : String := "lambda_L1"
  let lam ← match st1.objAttrs.lookup key with
    | some v => pure v
    | none => Except.error PyError.attributeError
  let loss_G_L1 := l1Mean fake_ab ab * lam
  let loss_G := loss_G_GAN + loss_G_L1
  pure ({ st1 with
            loss_D_real := loss_D_real
            loss_D_fake := loss_D_fake
            loss_D := loss_D
            loss_G_GAN := loss_G_GAN
            loss_G_L1 := loss_G_L1
            loss_G := loss_G },
        fake_image)

/-- `ColorizationGAN.generate` (lines 213-233): move the input to the
configured device (device placement is identity at the value level),
switch the generator to evaluation mode, and run only the generator inside
a properly entered `torch.no_grad()` block; the predicted ab tensor is the
sole return value. -/
def ColorizationGAN.generate (st : ColorizationGAN) (L : Tensor4) :
    ColorizationGAN × Tensor4 :=
  let st1 := { st with genTraining := false }
  let fake_ab :=
    runModule false (st1.genRG.any (fun b => b)) st1.genFwd st1.genParams L
  (st1, fake_ab)

/-- The action sequence of one `generate` call (lines 227-233). -/
def generateEvents : List Event :=
  [Event.genEvalMode, Event.enterNoGrad, Event.genForward]

/-!
Embedding of `src/models/ResNet_Generator.py`.

The torchvision ResNet-18 stages reused verbatim by the encoder, and the
`ConvTranspose2d` / `BatchNorm2d` / `Dropout` layers instantiated by the
decoder, are framework modules whose weights are external to the
repository; each is modelled as a function on tensors bundled with the
shape contract the framework documents for it (`NNModule` below).  The
operations the repository itself writes - the forward composition, the
skip-connection concatenations, `F.relu` and `torch.tanh` - are translated
directly.
-/

/-- Output spatial extent of a stride-`s` convolution with kernel `k` and
padding `p` on an input of extent `n`. -/
def conv2dOut (k s p n : ℕ) : ℕ := (n + 2 * p - k) / s + 1

/-- Output spatial extent of a stride-`s` transposed convolution with
kernel `k` and padding `p` on an input of extent `n`. -/
def convT2dOut (k s p n : ℕ) : ℕ := s * (n - 1) + k - 2 * p

/-- A framework layer: a function on tensors together with its documented
shape contract (`chMap` on the channel count, `dimMap` on each spatial
extent, batch preserved). -/
structure NNModule (chMap dimMap : ℕ → ℕ) where
  f : Tensor4 → Tensor4
  hN : ∀ x, (f x).N = x.N
  hC : ∀ x, (f x).C = chMap x.C
  hH : ∀ x, (f x).H = dimMap x.H
  hW : ∀ x, (f x).W = dimMap x.W

/-- `nn.ReLU()` / `F.relu`: elementwise maximum with 0. -/
def reluT (t : Tensor4) : Tensor4 :=
  { t with data := fun n c i j => max (t.data n c i j) 0 }

/-- `torch.tanh`: elementwise hyperbolic tangent. -/
noncomputable def tanhT (t : Tensor4) : Tensor4 :=
  { t with data := fun n c i j => Real.tanh (t.data n c i j) }

/-- The stages of the pretrained torchvision ResNet-18 backbone used by
`ResNetEncoder` (lines 13-24), with the channel and spatial contracts
stated in the source comments: `conv1` is a 7x7 stride-2 pad-3 convolution
to 64 channels, `maxpool` is a 3x3 stride-2 pad-1 pooling, `layer1`
preserves shape, and `layer2..4` each halve the spatial extent via a 3x3
stride-2 pad-1 downsampling convolution while mapping to 128, 256 and 512
channels. -/
structure ResNet18Stages where
  conv1 : NNModule (fun _ => 64) (conv2dOut 7 2 3)
  bn1 : NNModule id id
  maxpool : NNModule id (conv2dOut 3 2 1)
  layer1 : NNModule id id
  layer2 : NNModule (fun _ => 128) (conv2dOut 3 2 1)
  layer3 : NNModule (fun _ => 256) (conv2dOut 3 2 1)
  layer4 : NNModule (fun _ => 512) (conv2dOut 3 2 1)

/-- The intermediate activations `ResNetEncoder.forward` stores as
attributes (lines 16-24) for the decoder to read back. -/
structure EncoderActs where
  init_layer : Tensor4
  block1 : Tensor4
  block2 : Tensor4
  block3 : Tensor4
  block4 : Tensor4

/-- `ResNetEncoder.forward` (lines 15-26).  The Python method returns only
`block4`; the stored attribute pyramid is modelled as the returned
record. -/
def ResNetEncoder.forward (r : ResNet18Stages) (x : Tensor4) : EncoderActs :=
  let il := reluT (r.bn1.f (r.conv1.f x))
  let b1 := r.layer1.f (r.maxpool.f il)
  let b2 := r.layer2.f b1
  let b3 := r.layer3.f b2
  let b4 := r.layer4.f b3
  { init_layer := il, block1 := b1, block2 := b2, block3 := b3, block4 := b4 }

/-- One block built by `ResNetDecoder.transp_conv_block` (lines 68-105):
`ReLU`, then a stride-2 kernel-4 pad-1 `ConvTranspose2d` to `cout`
channels without bias, then `BatchNorm2d`, then optionally `Dropout(0.5)`
(shape preserving). -/
structure TranspConvBlock (cout : ℕ) where
  convT : NNModule (fun _ => cout) (convT2dOut 4 2 1)
  bn : NNModule id id
  drop : Option (NNModule id id)

/-- Applying a `transp_conv_block` sequential. -/
def TranspConvBlock.run {c : ℕ} (b : TranspConvBlock c) (x : Tensor4) :
    Tensor4 :=
  let y := b.bn.f (b.convT.f (reluT x))
  match b.drop with
  | some d => d.f y
  | none => y

/-- The `ResNetDecoder` module (lines 38-48), parametric in the
`out_channels` constructor argument (default 512): `up_block1` maps 512 to
`out_channels // 2` channels, `up_block2` maps `out_channels` to
`out_channels // 4`, `up_block3` maps `out_channels // 2` to
`out_channels // 8`, `up_block4` maps `out_channels // 4` to
`out_channels // 8`, and `up_block5` is a plain `ConvTranspose2d` from
`out_channels // 4` to exactly 2 channels. -/
structure ResNetDecoderM (oc : ℕ) where
  up_block1 : TranspConvBlock (oc / 2)
  up_block2 : TranspConvBlock (oc / 4)
  up_block3 : TranspConvBlock (oc / 8)
  up_block4 : TranspConvBlock (oc / 8)
  up_block5 : NNModule (fun _ => 2) (convT2dOut 4 2 1)

/-- `ResNetDecoder.forward` (lines 50-66): four upsampling stages, each
concatenated with the matching encoder activation along the channel axis,
then a plain ReLU, the final transposed convolution to 2 channels, and a
saturating `torch.tanh`. -/
noncomputable def ResNetDecoderM.forward {oc : ℕ} (d : ResNetDecoderM oc)
    (enc : EncoderActs) (x : Tensor4) : Tensor4 :=
  let up_1 := d.up_block1.run x
  let up_1c := Tensor4.catC enc.block3 up_1
  let up_2 := d.up_block2.run up_1c
  let up_2c := Tensor4.catC enc.block2 up_2
  let up_3 := d.up_block3.run up_2c
  let up_3c := Tensor4.catC enc.block1 up_3
  let up_4 := d.up_block4.run up_3c
  let up_4c := Tensor4.catC enc.init_layer up_4
  let up_5 := d.up_block5.f (reluT up_4c)
  tanhT up_5

/-- Modelled from the spec: the class `Generator` (file
`models/Generator.py`) is imported by `GANModel.py` but is not under
`src/`.  Per the specification the Generator composes the Encoder and the
Decoder, the decoder consuming the deepest encoder feature map, exposing a
single forward mapping from L to the predicted ab channels. -/
noncomputable def Generator.forward (r : ResNet18Stages) {oc : ℕ}
    (d : ResNetDecoderM oc) (x : Tensor4) : Tensor4 :=
  let acts := ResNetEncoder.forward r x
  d.forward acts acts.block4

/-- The `in_channels` constructor arguments of `up_block1` to `up_block5`
(`ResNetDecoder.__init__` lines 43-48), indexed 0 to 4. -/
def up_block_in_channels (oc i : ℕ) : ℕ :=
  [512, oc, oc / 2, oc / 4, oc / 4].getD i 0

/-- The `out_channels` constructor arguments of `up_block1` to `up_block5`
(`ResNetDecoder.__init__` lines 43-48), indexed 0 to 4. -/
def up_block_out_channels (oc i : ℕ) : ℕ :=
  [oc / 2, oc / 4, oc / 8, oc / 8, 2].getD i 0

/-- Channel counts of the encoder activations concatenated at the four
decoder stage boundaries, in the order `ResNetDecoder.forward` uses them
(lines 52-61): `block3`, `block2`, `block1`, `init_layer`. -/
def encoder_skip_channels (i : ℕ) : ℕ :=
  [256, 128, 64, 64].getD i 0

/-!  Concrete instances used by the witness theorems. -/

/-- A module satisfying a given shape contract with all-zero outputs. -/
def zeroNN (cm dm : ℕ → ℕ) : NNModule cm dm :=
  { f := fun x =>
      { N := x.N, C := cm x.C, H := dm x.H, W := dm x.W
        requiresGrad := false, data := fun _ _ _ _ => 0 }
    hN := fun _ => rfl, hC := fun _ => rfl
    hH := fun _ => rfl, hW := fun _ => rfl }

/-- A concrete backbone instance. -/
def zeroStages : ResNet18Stages :=
  { conv1 := zeroNN _ _, bn1 := zeroNN _ _, maxpool := zeroNN _ _
    layer1 := zeroNN _ _, layer2 := zeroNN _ _, layer3 := zeroNN _ _
    layer4 := zeroNN _ _ }

/-- A concrete transposed-convolution block instance. -/
def zeroTCB (c : ℕ) : TranspConvBlock c :=
  { convT := zeroNN _ _, bn := zeroNN _ _, drop := none }

/-- A concrete decoder instance with the default `out_channels = 512`. -/
def zeroDecoder : ResNetDecoderM 512 :=
  { up_block1 := zeroTCB _, up_block2 := zeroTCB _, up_block3 := zeroTCB _
    up_block4 := zeroTCB _, up_block5 := zeroNN _ _ }

/-- A concrete valid input: batch 1, 3 channels, 32 x 32. -/
def inputT4 : Tensor4 :=
  { N := 1, C := 3, H := 32, W := 32, requiresGrad := false
    data := fun _ _ _ _ => 0 }

/-- A module that returns its input unchanged, used to instantiate the
abstract generator and discriminator forwards in witnesses. -/
def idModule : List ℝ → Tensor4 → Tensor4 := fun _ x => x

/-- An optimizer update that leaves the parameters unchanged, used to
instantiate the abstract Adam steps in witnesses. -/
def idUpdate : ℝ → List ℝ → List ℝ := fun _ p => p

/-- An all-zero 1 x 1 x 1 x 1 tensor. -/
def zeroT4 : Tensor4 :=
  { N := 1, C := 1, H := 1, W := 1, requiresGrad := false
    data := fun _ _ _ _ => 0 }

/-- A concrete `ColorizationGAN` built by the modelled `__init__` with one
parameter per network. -/
noncomputable def cgW : ColorizationGAN :=
  ColorizationGAN.init idModule idModule idUpdate idUpdate [0] [0]

/-- The object state right after the discriminator sub-step of one
`optimize` call (line 146). -/
noncomputable def stAfterD (st : ColorizationGAN) (L ab : Tensor4) :
    ColorizationGAN :=
  discSubStep st (fakeImage st L) (realImage L ab)

/-- The discriminator score recomputed in the generator sub-step
(line 153) on the non-detached fake composite, with the discriminator
parameters already updated by `opt_D.step()` and its gradients frozen. -/
noncomputable def liveFakePredictions (st : ColorizationGAN)
    (L ab : Tensor4) : Tensor4 :=
  runModule true
    ((set_requires_grad (stAfterD st L ab).discRG false).any (fun b => b))
    st.discFwd (stAfterD st L ab).discParams (fakeImage st L)

/-! Helper lemmas. -/

/-- The hyperbolic tangent is bounded above by 1. -/
lemma real_tanh_le_one (x : ℝ) : Real.tanh x ≤ 1 := by
  rw [Real.tanh_eq_sinh_div_cosh]
  exact ((div_le_one (Real.cosh_pos x)).2 (Real.sinh_lt_cosh x).le)

/-- The hyperbolic tangent is bounded below by -1. -/
lemma neg_one_le_real_tanh (x : ℝ) : -1 ≤ Real.tanh x := by
  rw [Real.tanh_eq_sinh_div_cosh]
  rw [le_div_iff₀ (Real.cosh_pos x)]
  nlinarith [Real.cosh_add_sinh x, Real.exp_pos x]

/-- Shape behavior of a `transp_conv_block`: batch preserved, channel
count forced to the constructor argument, spatial extents given by the
stride-2 kernel-4 pad-1 transposed convolution. -/
lemma TranspConvBlock.run_shape {c : ℕ} (b : TranspConvBlock c)
    (x : Tensor4) :
    (b.run x).N = x.N ∧ (b.run x).C = c ∧
      (b.run x).H = convT2dOut 4 2 1 x.H ∧
      (b.run x).W = convT2dOut 4 2 1 x.W := by
  rcases hd : b.drop with _ | d
  · simp [TranspConvBlock.run, hd, b.bn.hN, b.bn.hC, b.bn.hH, b.bn.hW,
      b.convT.hN, b.convT.hC, b.convT.hH, b.convT.hW, reluT]
  · simp [TranspConvBlock.run, hd, d.hN, d.hC, d.hH, d.hW,
      b.bn.hN, b.bn.hC, b.bn.hH, b.bn.hW,
      b.convT.hN, b.convT.hC, b.convT.hH, b.convT.hW, reluT]

/-! Claim theorems. -/

/-- C1: in every training step, the combined discriminator loss stored by
`optimize` equals exactly the arithmetic mean of the fake-composite BCE
loss and the real-composite BCE loss, for all inputs (L, ab). -/
theorem optimize_loss_D_is_mean (st : ColorizationGAN) (L ab : Tensor4) :
    (st.optimize L ab).loss_D =
      ((st.optimize L ab).loss_D_fake + (st.optimize L ab).loss_D_real)
        / 2 := by
  have h : (st.optimize L ab).loss_D =
      ((st.optimize L ab).loss_D_fake + (st.optimize L ab).loss_D_real)
        * 0.5 := rfl
  rw [h]; ring

/-- C3: for every object state and input pair, the evaluation entry point
`test` does not mirror the training loss computation at all - line 182
names `torch.no_grad` without invoking it, so entering the class object
raises `TypeError` before any loss is computed and gradient tracking is
never disabled (and line 201 would additionally read the never-assigned
attribute `lambda_L1`). -/
theorem test_raises_type_error (st : ColorizationGAN) (L ab : Tensor4) :
    st.test L ab = Except.error PyError.typeError := rfl

/-- C9: the evaluation step does not leave the six loss attributes as
scalar values: at a concrete input it raises `TypeError` before storing
anything (and its stores on lines 206-208 end in commas, which would
produce 1-tuples). -/
theorem test_concrete_raises :
    cgW.test zeroT4 zeroT4 = Except.error PyError.typeError := rfl

/-- C4: for every input L, `generate` returns exactly the generator output
computed in evaluation mode under an entered `torch.no_grad()` block, the
returned tensor carries no gradient-tracking state, and the action
sequence of `generate` contains no discriminator invocation, no loss
evaluation and no optimizer step. -/
theorem generate_runs_generator_only (st : ColorizationGAN) (L : Tensor4) :
    (st.generate L).2 =
        runModule false (st.genRG.any (fun b => b)) st.genFwd st.genParams L
    ∧ (st.generate L).2.requiresGrad = false
    ∧ (st.generate L).1.genTraining = false
    ∧ Event.genEvalMode ∈ generateEvents
    ∧ Event.enterNoGrad ∈ generateEvents
    ∧ (∀ e ∈ generateEvents,
        e.isDiscForward = false ∧ e.isLossEval = false ∧
          e.isOptStep = false) := by
  exact ⟨rfl, rfl, rfl, by decide, by decide, by decide⟩

/-- C7: within a single `optimize` call, the discriminator sub-step
changes no generator parameter, the generator sub-step changes no
discriminator parameter, and `optimize` is exactly the composition of the
two sub-steps. -/
theorem optimize_param_isolation (st : ColorizationGAN)
    (fi ri fa ab L ab2 : Tensor4) :
    (discSubStep st fi ri).genParams = st.genParams
    ∧ (genSubStep st fi fa ab).discParams = st.discParams
    ∧ st.optimize L ab2 =
        genSubStep (discSubStep st (fakeImage st L) (realImage L ab2))
          (fakeImage st L) (fakeAB st L) ab2 :=
  ⟨rfl, rfl, rfl⟩

/-- C8: in every `optimize` call, the discriminator optimizer step comes
strictly before the generator optimizer step, the only fake-composite
discriminator forward before the discriminator step is on the detached
copy, the fake discriminator loss is computed from the detached composite,
and the detached composite carries no gradient tracking. -/
theorem disc_update_precedes_gen_update (st : ColorizationGAN)
    (fi ri : Tensor4) :
    optimizeEvents.indexOf Event.stepD < optimizeEvents.indexOf Event.stepG
    ∧ Event.discForward DiscInput.fakeDetached ∈
        optimizeEvents.take (optimizeEvents.indexOf Event.stepD)
    ∧ (∀ e ∈ optimizeEvents.take (optimizeEvents.indexOf Event.stepD),
        e ≠ Event.discForward DiscInput.fakeLive)
    ∧ (discSubStep st fi ri).loss_D_fake =
        st.ganloss.call
          (runModule true
            ((set_requires_grad st.discRG true).any (fun b => b))
            st.discFwd st.discParams fi.detach) false
    ∧ fi.detach.requiresGrad = false :=
  ⟨by decide, by decide, by decide, rfl, rfl⟩

/-- C10: after every completed `optimize` call every discriminator
parameter has `requires_grad` false; within a call the flag is toggled
exactly twice (on, then off), and the enable happens at the start of the
discriminator sub-step, before any discriminator forward. -/
theorem disc_frozen_after_optimize (st : ColorizationGAN)
    (L ab : Tensor4) :
    (∀ b ∈ (st.optimize L ab).discRG, b = false)
    ∧ optimizeEvents.filter Event.isSetRG =
        [Event.setDiscRG true, Event.setDiscRG false]
    ∧ optimizeEvents.indexOf (Event.setDiscRG true) <
        optimizeEvents.indexOf (Event.discForward DiscInput.fakeDetached)
    := by
  refine ⟨?_, by decide, by decide⟩
  intro b hb
  have h : (st.optimize L ab).discRG =
      List.map (fun _ => false) (List.map (fun _ => true) st.discRG) := rfl
  rw [h] at hb
  rcases List.mem_map.1 hb with ⟨a, _, ha⟩
  exact ha.symm

/-- C2: in every training step, the combined generator loss used for the
generator update equals the BCE of the discriminator score on the
non-detached fake composite against the broadcast real label, plus the
mean absolute error between predicted and real ab scaled by the fixed
weight `lambda_l1`; the fake composite indeed carries gradient tracking
(non-detached), and `__init__` defaults `lambda_l1` to 100. -/
theorem optimize_loss_G_formula (st : ColorizationGAN) (L ab : Tensor4)
    (hg : st.genRG.any (fun b => b) = true)
    (gf df : List ℝ → Tensor4 → Tensor4) (du gu : ℝ → List ℝ → List ℝ)
    (gp dp : List ℝ) :
    (st.optimize L ab).loss_G =
        bceMean (liveFakePredictions st L ab)
          (Tensor4.expand_as st.ganloss.real_label
            (liveFakePredictions st L ab))
      + l1Mean (fakeAB st L) ab * st.lambda_l1
    ∧ (fakeImage st L).requiresGrad = true
    ∧ (ColorizationGAN.init gf df du gu gp dp).lambda_l1 = 100 := by
  refine ⟨rfl, ?_, rfl⟩
  simp [fakeImage, fakeAB, runModule, Tensor4.catC, Tensor4.selectChannel0,
    hg]

/-- Witness for C2 at a concrete object state and input. -/
theorem optimize_loss_G_formula_witness :
    cgW.genRG.any (fun b => b) = true
    ∧ ((cgW.optimize zeroT4 zeroT4).loss_G =
          bceMean (liveFakePredictions cgW zeroT4 zeroT4)
            (Tensor4.expand_as cgW.ganloss.real_label
              (liveFakePredictions cgW zeroT4 zeroT4))
        + l1Mean (fakeAB cgW zeroT4) zeroT4 * cgW.lambda_l1
      ∧ (fakeImage cgW zeroT4).requiresGrad = true
      ∧ (ColorizationGAN.init idModule idModule idUpdate idUpdate
            [0] [0]).lambda_l1 = 100) :=
  ⟨rfl, optimize_loss_G_formula cgW zeroT4 zeroT4 rfl idModule idModule
    idUpdate idUpdate [0] [0]⟩

/-- C5: for every valid input (spatial extents divisible by the total
encoder downsampling factor 32), the generator output has exactly 2
channels, the same spatial height and width as the input, and every
element lies in [-1, 1]. -/
theorem generator_output_contract (r : ResNet18Stages)
    (d : ResNetDecoderM 512) (x : Tensor4) (mh mw : ℕ)
    (hmh : 0 < mh) (hmw : 0 < mw)
    (hH : x.H = 32 * mh) (hW : x.W = 32 * mw) :
    (Generator.forward r d x).C = 2
    ∧ (Generator.forward r d x).H = x.H
    ∧ (Generator.forward r d x).W = x.W
    ∧ ∀ n c i j, -1 ≤ (Generator.forward r d x).data n c i j
        ∧ (Generator.forward r d x).data n c i j ≤ 1 := by
  have hilH : (ResNetEncoder.forward r x).init_layer.H = 16 * mh := by
    show (r.bn1.f (r.conv1.f x)).H = 16 * mh
    rw [r.bn1.hH, id_eq, r.conv1.hH, hH]
    unfold conv2dOut; omega
  have hilW : (ResNetEncoder.forward r x).init_layer.W = 16 * mw := by
    show (r.bn1.f (r.conv1.f x)).W = 16 * mw
    rw [r.bn1.hW, id_eq, r.conv1.hW, hW]
    unfold conv2dOut; omega
  have h5C : ∀ t : Tensor4, (d.up_block5.f t).C = 2 := by
    intro t; rw [d.up_block5.hC]
  have h5H : ∀ t : Tensor4, t.H = 16 * mh →
      (tanhT (d.up_block5.f (reluT t))).H = 32 * mh := by
    intro t ht
    show (d.up_block5.f (reluT t)).H = 32 * mh
    rw [d.up_block5.hH]
    show convT2dOut 4 2 1 t.H = 32 * mh
    rw [ht]; unfold convT2dOut; omega
  have h5W : ∀ t : Tensor4, t.W = 16 * mw →
      (tanhT (d.up_block5.f (reluT t))).W = 32 * mw := by
    intro t ht
    show (d.up_block5.f (reluT t)).W = 32 * mw
    rw [d.up_block5.hW]
    show convT2dOut 4 2 1 t.W = 32 * mw
    rw [ht]; unfold convT2dOut; omega
  have hcatH : (Tensor4.catC (ResNetEncoder.forward r x).init_layer
      (d.up_block4.run (Tensor4.catC (ResNetEncoder.forward r x).block1
        (d.up_block3.run (Tensor4.catC (ResNetEncoder.forward r x).block2
          (d.up_block2.run (Tensor4.catC (ResNetEncoder.forward r x).block3
            (d.up_block1.run
              (ResNetEncoder.forward r x).block4)))))))).H = 16 * mh :=
    hilH
  have hcatW : (Tensor4.catC (ResNetEncoder.forward r x).init_layer
      (d.up_block4.run (Tensor4.catC (ResNetEncoder.forward r x).block1
        (d.up_block3.run (Tensor4.catC (ResNetEncoder.forward r x).block2
          (d.up_block2.run (Tensor4.catC (ResNetEncoder.forward r x).block3
            (d.up_block1.run
              (ResNetEncoder.forward r x).block4)))))))).W = 16 * mw :=
    hilW
  refine ⟨h5C _, ?_, ?_, ?_⟩
  · rw [hH]; exact h5H _ hcatH
  · rw [hW]; exact h5W _ hcatW
  · intro n c i j
    exact ⟨neg_one_le_real_tanh _, real_tanh_le_one _⟩

/-- Witness for C5 at a concrete backbone, decoder and 32 x 32 input. -/
theorem generator_output_contract_witness :
    ((0 : ℕ) < 1 ∧ inputT4.H = 32 * 1 ∧ inputT4.W = 32 * 1)
    ∧ ((Generator.forward zeroStages zeroDecoder inputT4).C = 2
      ∧ (Generator.forward zeroStages zeroDecoder inputT4).H = inputT4.H
      ∧ (Generator.forward zeroStages zeroDecoder inputT4).W = inputT4.W
      ∧ ∀ n c i j,
          -1 ≤ (Generator.forward zeroStages zeroDecoder inputT4).data n c i j
          ∧ (Generator.forward zeroStages zeroDecoder inputT4).data n c i j
              ≤ 1) :=
  ⟨⟨by decide, by decide, by decide⟩,
   generator_output_contract zeroStages zeroDecoder inputT4 1 1 (by decide)
     (by decide) (by decide) (by decide)⟩

/-- C6 counterexample: under the default construction (`out_channels`
= 512), the transposed-convolution output channel widths are 256, 128,
64, 64 - the sequence does not start at 512 and does not halve
geometrically at every stage (stage 4 repeats 64 instead of halving
stage 3). -/
theorem up_block_widths_not_halving :
    up_block_out_channels 512 0 = 256
    ∧ up_block_out_channels 512 1 = 128
    ∧ up_block_out_channels 512 2 = 64
    ∧ up_block_out_channels 512 3 = 64
    ∧ up_block_out_channels 512 0 ≠ 512
    ∧ ¬ (∀ i : Fin 3,
          up_block_out_channels 512 (i.val + 1) * 2 =
            up_block_out_channels 512 i.val) := by
  decide

/-- C6 (amended): at every decoder stage boundary the transposed
convolution output channel count plus the channel count of the
concatenated encoder skip feature equals the next stage's expected input
channel count; under the default construction the transposed-convolution
output widths are 256, 128, 64, 64 (halving for the first three stages,
stage 4 repeating 64). -/
theorem decoder_channel_invariant :
    (∀ i : Fin 4,
      up_block_out_channels 512 i.val + encoder_skip_channels i.val =
        up_block_in_channels 512 (i.val + 1))
    ∧ up_block_out_channels 512 0 = 256
    ∧ up_block_out_channels 512 1 = 128
    ∧ up_block_out_channels 512 2 = 64
    ∧ up_block_out_channels 512 3 = 64 := by
  decide
